import Mathlib

/-!
Shallow embedding of `src/gte_py/clients/user.py` (class `UserClient`), the
account-facing facade of the gte-python-sdk. Each async method is modelled as a
pure function from the facade state and an explicit environment (the values the
collaborators would return) to a `Trace`: the ordered list of collaborator
calls issued, together with the error raised, if any. Python `int` is modelled
as `Int`; Python exceptions as the `Error` type.
-/

namespace GteUser

/-- Raw EVM address as used before checksum normalization. -/
abbrev Address := String

/-- Checksummed EVM address (`eth_typing.ChecksumAddress`). External to this
repository; modelled as a tagged string. -/
structure ChecksumAddress where
  addr : Address
deriving DecidableEq, Repr

/-- `eth_utils.to_checksum_address`; external collaborator, modelled as the
tagging injection (no claim depends on the checksum algorithm itself). -/
def to_checksum_address (s : Address) : ChecksumAddress := ⟨s⟩

/-- Modelled from the spec: `OperatorRole` lives in
`gte_py.api.chain.structs`, which is not under `src/`. The spec describes it as
an enumerated set of permission bits, each role carrying one bit value; Python
enum members compare equal exactly when their values coincide, so a role is
modelled by its bit value. -/
structure OperatorRole where
  value : Nat
deriving DecidableEq, Repr

/-- Modelled from the spec: the withdraw permission bit. The concrete bit
position is not in `src/`; only distinctness from other roles matters. -/
def OperatorRole.WITHDRAW : OperatorRole := ⟨2⟩

/-- Modelled from the spec: the launchpad-fill permission bit. -/
def OperatorRole.LAUNCHPAD_FILL : OperatorRole := ⟨4⟩

/-- Python exceptions raised by `UserClient` itself: `ValueError` for the
caller-input role guards, `RuntimeError` for the uninitialized factory. -/
inductive Error where
  | valueError (msg : String)
  | runtimeError (msg : String)
deriving DecidableEq, Repr

/-- One collaborator invocation issued by the facade, with the arguments the
source passes. -/
inductive Call where
  | balanceOf (account : ChecksumAddress)
  | wrapEth (weth : ChecksumAddress) (amount : Int)
  | allowance (owner spender : ChecksumAddress)
  | approve (spender : ChecksumAddress) (amount : Int)
  | factoryDeposit (account token : ChecksumAddress) (amount : Int)
  | factoryWithdraw (account token : ChecksumAddress) (amount : Int)
  | factoryGetAccountBalance (account token : ChecksumAddress)
  | managerApprove (operator : ChecksumAddress) (roles : Nat)
  | managerDisapprove (operator : ChecksumAddress) (roles : Nat)
  | unwrapEth (weth : ChecksumAddress) (amount : Int)
deriving DecidableEq, Repr

/-- Result of running one facade method: the ordered collaborator calls it
issued before returning or raising, and the raised error if any. -/
structure Trace where
  calls : List Call
  err : Option Error
deriving DecidableEq, Repr

/-- The facade state set in `UserClient.__init__`: network configuration
(`weth_address` is the part the embedded methods read), the account address,
the factory address reachable through the CLOB client, and whether
`self._clob.clob_factory` has been initialized (`none` = Python `None`). -/
structure UserClient where
  weth_address : ChecksumAddress
  account : ChecksumAddress
  factory_address : ChecksumAddress
  clob_factory : Option Unit
deriving DecidableEq, Repr

/-- `UserClient.get_clob_factory` (user.py lines 49-52). -/
def UserClient.get_clob_factory (c : UserClient) : Except Error Unit :=
  match c.clob_factory with
  | none => .error (.runtimeError
      "CLOBFactory is not initialized. Did you forget to call await CLOBClient.init()?")
  | some f => .ok f

/-- `UserClient._encode_rules` (user.py lines 196-200): OR-fold of the role
bit values, starting from 0. -/
def UserClient._encode_rules (roles : List OperatorRole) : Nat :=
  roles.foldl (fun acc role => acc ||| role.value) 0

/-- `UserClient.approve_operator` (user.py lines 202-231): two guard checks,
then one contract-manager call carrying the encoded role bitmask. -/
def UserClient.approve_operator (_c : UserClient) (operator_address : ChecksumAddress)
    (roles : List OperatorRole) (unsafe_withdraw unsafe_launchpad_fill : Bool) : Trace :=
  if OperatorRole.WITHDRAW ∈ roles ∧ unsafe_withdraw = false then
    ⟨[], some (.valueError "Unsafe withdraw must be enabled to approve withdraw role")⟩
  else if OperatorRole.LAUNCHPAD_FILL ∈ roles ∧ unsafe_launchpad_fill = false then
    ⟨[], some (.valueError "Unsafe launchpad fill must be enabled to approve launchpad fill role")⟩
  else
    ⟨[.managerApprove operator_address (UserClient._encode_rules roles)], none⟩

/-- `UserClient.disapprove_operator` (user.py lines 233-253): no guard, one
contract-manager call. -/
def UserClient.disapprove_operator (_c : UserClient) (operator_address : ChecksumAddress)
    (roles : List OperatorRole) : Trace :=
  ⟨[.managerDisapprove operator_address (UserClient._encode_rules roles)], none⟩

/-- Values the chain collaborators would return during one `deposit` call:
the WETH balance that `token.balance_of(self._account)` reads and the
allowance that `token.allowance(owner, spender)` reads. -/
structure ChainEnv where
  weth_balance : Int
  allowance : Int
deriving DecidableEq, Repr

/-- `UserClient.deposit` (user.py lines 73-116): get the factory (may raise),
optionally wrap the WETH shortfall, check the allowance, optionally approve,
then deposit. Each branch mirrors the corresponding `if` of the source. -/
def UserClient.deposit (c : UserClient) (env : ChainEnv)
    (token_address : ChecksumAddress) (amount : Int) : Trace :=
  match c.get_clob_factory with
  | .error e => ⟨[], some e⟩
  | .ok _ =>
    let wrapCalls :=
      if token_address = c.weth_address then
        Call.balanceOf c.account ::
          (if env.weth_balance < amount then
            [Call.wrapEth token_address (amount - env.weth_balance)]
          else [])
      else []
    let approveCalls :=
      Call.allowance c.account c.factory_address ::
        (if env.allowance < amount then
          [Call.approve c.factory_address amount]
        else [])
    ⟨wrapCalls ++ approveCalls ++
      [Call.factoryDeposit c.account token_address amount], none⟩

/-- `UserClient.withdraw` (user.py lines 118-138). -/
def UserClient.withdraw (c : UserClient)
    (token_address : ChecksumAddress) (amount : Int) : Trace :=
  match c.get_clob_factory with
  | .error e => ⟨[], some e⟩
  | .ok _ => ⟨[Call.factoryWithdraw c.account token_address amount], none⟩

/-- `UserClient.get_token_balance` (user.py lines 178-194). -/
def UserClient.get_token_balance (c : UserClient)
    (token_address : ChecksumAddress) : Trace :=
  match c.get_clob_factory with
  | .error e => ⟨[], some e⟩
  | .ok _ => ⟨[Call.factoryGetAccountBalance c.account token_address], none⟩

/-- One raw token entry of the portfolio response (`Dict[str, Any]`); opaque
payload, the facade never inspects it. -/
structure TokenEntry where
  payload : String
deriving DecidableEq, Repr

/-- The portfolio response returned by `self._rest.get_user_portfolio`:
a JSON mapping in which the `tokens` and `totalUsdBalance` keys may be absent
(`none`). The USD number is modelled as an exact rational; Python
`float(portfolio.get("totalUsdBalance", 0))` is exact at the default `0`. -/
structure Portfolio where
  tokens : Option (List TokenEntry)
  totalUsdBalance : Option Rat
deriving DecidableEq, Repr

/-- `UserClient.get_token_balances` (user.py lines 149-157):
`portfolio.get("tokens", [])`. -/
def UserClient.get_token_balances (_c : UserClient) (portfolio : Portfolio) :
    List TokenEntry :=
  portfolio.tokens.getD []

/-- `UserClient.get_total_usd_balance` (user.py lines 159-167):
`float(portfolio.get("totalUsdBalance", 0))`. -/
def UserClient.get_total_usd_balance (_c : UserClient) (portfolio : Portfolio) :
    Rat :=
  portfolio.totalUsdBalance.getD 0

/-- Order side tag (`OrderSide.from_str`): external model code; the facade only
forwards the parsed tag, so a side is modelled by its string tag. -/
structure OrderSide where
  tag : String
deriving DecidableEq, Repr

/-- `OrderSide.from_str` of `gte_py.models`; external to `src/`. -/
def OrderSide.from_str (s : String) : OrderSide := ⟨s⟩

/-- `OrderType` constants of `gte_py.models` used by the facade. -/
inductive OrderType where
  | LIMIT
  | MARKET
deriving DecidableEq, Repr

/-- `TimeInForce` constants of `gte_py.models` used by the facade. -/
inductive TimeInForce where
  | GTC
  | IOC
deriving DecidableEq, Repr

/-- `OrderStatus` constants of `gte_py.models` used by the facade. -/
inductive OrderStatus where
  | OPEN
  | FILLED
  | CANCELED
deriving DecidableEq, Repr

/-- Transaction hash (`HexBytes`); external, modelled as a tagged string. -/
structure TxnHash where
  hex : String
deriving DecidableEq, Repr

/-- Modelled from the spec: the `Order` model of `gte_py.models` is not under
`src/`. The facade constructs it with keyword arguments, leaving the fields it
does not pass unpopulated, so each such field is an `Option` defaulting to
`none`. -/
structure Order where
  order_id : Int
  market_address : ChecksumAddress
  side : OrderSide
  order_type : OrderType
  price : Int
  time_in_force : TimeInForce
  status : OrderStatus
  remaining_amount : Option Int := none
  original_amount : Option Int := none
  filled_amount : Option Int := none
  placed_at : Option Int := none
  filled_at : Option Int := none
  txn_hash : Option TxnHash := none
deriving DecidableEq, Repr

/-- One raw record of the REST order endpoints. The source reads each key with
`int(data[...])` (resp. the raw string for `side`, `marketAddress`,
`txnHash`); the integer fields here stand for those parsed values. The three
endpoints index different subsets of the same record shape. -/
structure RawRecord where
  orderId : Int
  marketAddress : Address
  side : String
  originalSize : Int
  sizeFilled : Int
  limitPrice : Int
  price : Int
  placedAt : Int
  filledAt : Int
  txnHash : String
deriving DecidableEq, Repr

/-- The record-to-`Order` mapping inside `UserClient.get_open_orders`
(user.py lines 304-318). -/
def open_order_of (data : RawRecord) : Order :=
  { order_id := data.orderId
    market_address := to_checksum_address data.marketAddress
    side := OrderSide.from_str data.side
    order_type := OrderType.LIMIT
    remaining_amount := some (data.originalSize - data.sizeFilled)
    original_amount := some data.originalSize
    filled_amount := some data.sizeFilled
    price := data.limitPrice
    time_in_force := TimeInForce.GTC
    status := OrderStatus.OPEN
    placed_at := some data.placedAt }

/-- `UserClient.get_open_orders` (user.py lines 285-318), applied to the REST
response list. -/
def UserClient.get_open_orders (_c : UserClient) (response : List RawRecord) :
    List Order :=
  response.map open_order_of

/-- The record-to-`Order` mapping inside `UserClient.get_filled_orders`
(user.py lines 335-348). -/
def filled_order_of (data : RawRecord) : Order :=
  { order_id := data.orderId
    market_address := to_checksum_address data.marketAddress
    side := OrderSide.from_str data.side
    order_type := OrderType.LIMIT
    filled_amount := some data.sizeFilled
    price := data.price
    time_in_force := TimeInForce.GTC
    status := OrderStatus.FILLED
    filled_at := some data.filledAt
    txn_hash := some ⟨data.txnHash⟩ }

/-- `UserClient.get_filled_orders` (user.py lines 320-348). -/
def UserClient.get_filled_orders (_c : UserClient) (response : List RawRecord) :
    List Order :=
  response.map filled_order_of

/-- The record-to-`Order` mapping inside `UserClient.get_order_history`
(user.py lines 365-377): like the open-order mapping, it reads `limitPrice`
and `placedAt`, fixes the status to `OPEN`, and passes neither
`filled_amount` nor `filled_at`. -/
def history_order_of (data : RawRecord) : Order :=
  { order_id := data.orderId
    market_address := to_checksum_address data.marketAddress
    side := OrderSide.from_str data.side
    order_type := OrderType.LIMIT
    remaining_amount := some (data.originalSize - data.sizeFilled)
    original_amount := some data.originalSize
    price := data.limitPrice
    time_in_force := TimeInForce.GTC
    status := OrderStatus.OPEN
    placed_at := some data.placedAt }

/-- `UserClient.get_order_history` (user.py lines 350-377). -/
def UserClient.get_order_history (_c : UserClient) (response : List RawRecord) :
    List Order :=
  response.map history_order_of

/-- Raw LP-positions response of `self._rest.get_user_lp_positions`; opaque
payload, the facade forwards it untouched. -/
structure LpPositions where
  payload : String
deriving DecidableEq, Repr

/-- One raw trade record of `self._rest.get_user_trades`; opaque payload, the
facade only feeds it to `trade_to_model`. -/
structure RawTrade where
  payload : String
deriving DecidableEq, Repr

/-- The `Trade` model of `gte_py.models`; external to `src/`, modelled as a
tagged payload. -/
structure Trade where
  payload : String
deriving DecidableEq, Repr

/-- `trade_to_model` of `gte_py.api.rest.models`; external to `src/`, modelled
as the tagging injection (no claim depends on its field arithmetic). -/
def trade_to_model (t : RawTrade) : Trade := ⟨t.payload⟩

/-- `UserClient.get_eth_balance` (user.py lines 54-61): direct delegation to
the chain client's balance query; `eth_balance` is the value it returns. -/
def UserClient.get_eth_balance (_c : UserClient) (eth_balance : Int) : Int :=
  eth_balance

/-- `UserClient.wrap_eth` (user.py lines 63-66): one WETH deposit call,
awaited. -/
def UserClient.wrap_eth (_c : UserClient) (weth_address : ChecksumAddress)
    (amount : Int) : Trace :=
  ⟨[.wrapEth weth_address amount], none⟩

/-- `UserClient.unwrap_eth` (user.py lines 68-71): one WETH withdraw call,
awaited. -/
def UserClient.unwrap_eth (_c : UserClient) (weth_address : ChecksumAddress)
    (amount : Int) : Trace :=
  ⟨[.unwrapEth weth_address amount], none⟩

/-- `UserClient.get_portfolio` (user.py lines 140-147): direct REST
delegation; `portfolio` is the response it returns. -/
def UserClient.get_portfolio (_c : UserClient) (portfolio : Portfolio) :
    Portfolio :=
  portfolio

/-- `UserClient.get_lp_positions` (user.py lines 169-176): direct REST
delegation. -/
def UserClient.get_lp_positions (_c : UserClient) (positions : LpPositions) :
    LpPositions :=
  positions

/-- `UserClient.is_operator_approved` (user.py lines 255-268): direct boolean
query delegation; `approved` is the value the contract manager returns. -/
def UserClient.is_operator_approved (_c : UserClient)
    (_operator_address : ChecksumAddress) (approved : Bool) : Bool :=
  approved

/-- `UserClient.get_trades` (user.py lines 270-283): fetches the REST response
and maps each raw trade through `trade_to_model`. -/
def UserClient.get_trades (_c : UserClient) (_market : ChecksumAddress)
    (response : List RawTrade) : List Trade :=
  response.map trade_to_model

/-- A public operation of the facade — one constructor per public method of
`UserClient` — together with its arguments and the environment (collaborator
return values) it runs against. -/
inductive Op where
  | get_clob_factory
  | get_eth_balance (eth_balance : Int)
  | wrap_eth (weth_address : ChecksumAddress) (amount : Int)
  | unwrap_eth (weth_address : ChecksumAddress) (amount : Int)
  | deposit (env : ChainEnv) (token : ChecksumAddress) (amount : Int)
  | withdraw (token : ChecksumAddress) (amount : Int)
  | get_portfolio (portfolio : Portfolio)
  | get_token_balances (portfolio : Portfolio)
  | get_total_usd_balance (portfolio : Portfolio)
  | get_lp_positions (positions : LpPositions)
  | get_token_balance (token : ChecksumAddress)
  | approve_operator (operator : ChecksumAddress) (roles : List OperatorRole)
      (unsafe_withdraw unsafe_launchpad_fill : Bool)
  | disapprove_operator (operator : ChecksumAddress) (roles : List OperatorRole)
  | is_operator_approved (operator : ChecksumAddress) (approved : Bool)
  | get_trades (market : ChecksumAddress) (response : List RawTrade)
  | get_open_orders (response : List RawRecord)
  | get_filled_orders (response : List RawRecord)
  | get_order_history (response : List RawRecord)

/-- Result value of a public operation. -/
inductive Output where
  | trace (t : Trace)
  | factory (r : Except Error Unit)
  | intVal (n : Int)
  | tokens (l : List TokenEntry)
  | usd (v : Rat)
  | portfolio (p : Portfolio)
  | lp (l : LpPositions)
  | boolVal (b : Bool)
  | trades (l : List Trade)
  | orders (l : List Order)

/-- Run one public operation in state-passing style: the returned `UserClient`
is the facade state after the call. The bodies are the method embeddings
above; no method of the source assigns to any `self._...` field outside
`__init__`, so each branch returns `c` unchanged. -/
def runOp (c : UserClient) (op : Op) : UserClient × Output :=
  match op with
  | .get_clob_factory => (c, .factory c.get_clob_factory)
  | .get_eth_balance eth_balance => (c, .intVal (c.get_eth_balance eth_balance))
  | .wrap_eth weth_address amount => (c, .trace (c.wrap_eth weth_address amount))
  | .unwrap_eth weth_address amount => (c, .trace (c.unwrap_eth weth_address amount))
  | .deposit env token amount => (c, .trace (c.deposit env token amount))
  | .withdraw token amount => (c, .trace (c.withdraw token amount))
  | .get_portfolio portfolio => (c, .portfolio (c.get_portfolio portfolio))
  | .get_token_balances portfolio => (c, .tokens (c.get_token_balances portfolio))
  | .get_total_usd_balance portfolio => (c, .usd (c.get_total_usd_balance portfolio))
  | .get_lp_positions positions => (c, .lp (c.get_lp_positions positions))
  | .get_token_balance token => (c, .trace (c.get_token_balance token))
  | .approve_operator operator roles uw ulf =>
      (c, .trace (c.approve_operator operator roles uw ulf))
  | .disapprove_operator operator roles =>
      (c, .trace (c.disapprove_operator operator roles))
  | .is_operator_approved operator approved =>
      (c, .boolVal (c.is_operator_approved operator approved))
  | .get_trades market response => (c, .trades (c.get_trades market response))
  | .get_open_orders response => (c, .orders (c.get_open_orders response))
  | .get_filled_orders response => (c, .orders (c.get_filled_orders response))
  | .get_order_history response => (c, .orders (c.get_order_history response))

/-- Recognizer for wrap calls in a trace. -/
def Call.isWrap : Call → Bool
  | .wrapEth _ _ => true
  | _ => false

/-- Recognizer for ERC-20 approval transactions in a trace. -/
def Call.isApprove : Call → Bool
  | .approve _ _ => true
  | _ => false

/-- Recognizer for allowance queries in a trace. -/
def Call.isAllowance : Call → Bool
  | .allowance _ _ => true
  | _ => false

/-- Recognizer for factory deposit transactions in a trace. -/
def Call.isDeposit : Call → Bool
  | .factoryDeposit _ _ _ => true
  | _ => false

/-- `allBefore p q l` holds when every call satisfying `p` occurs strictly
before every call satisfying `q`: no element after a `q`-call satisfies `p`. -/
def allBefore (p q : Call → Bool) : List Call → Bool
  | [] => true
  | c :: rest =>
      (if q c then rest.all (fun x => !(p x)) else true) && allBefore p q rest

/-- A concrete, fully initialized facade state used to instantiate theorems. -/
def sampleClient : UserClient :=
  ⟨⟨"WETH_ADDR"⟩, ⟨"ACCOUNT_ADDR"⟩, ⟨"FACTORY_ADDR"⟩, some ()⟩

/-- A concrete facade state whose CLOB factory was never initialized. -/
def sampleUninitClient : UserClient :=
  ⟨⟨"WETH_ADDR"⟩, ⟨"ACCOUNT_ADDR"⟩, ⟨"FACTORY_ADDR"⟩, none⟩

/-- A concrete operator address used to instantiate theorems. -/
def sampleOperator : ChecksumAddress := ⟨"OPERATOR_ADDR"⟩

/-- A concrete non-WETH token address used to instantiate theorems. -/
def sampleToken : ChecksumAddress := ⟨"TOKEN_ADDR"⟩

/-- The OR-fold used by `_encode_rules` is right-commutative, so it is
invariant under permutations of the role list. -/
theorem lorFold_rightCommutative :
    RightCommutative (fun (acc : Nat) (role : OperatorRole) => acc ||| role.value) :=
  ⟨fun b a₁ a₂ => by
    rw [Nat.lor_assoc, Nat.lor_assoc, Nat.lor_comm a₁.value a₂.value]⟩

/-- Claim C4: `_encode_rules` OR-combines the role bit values: the empty list
encodes to 0, any permutation of a list encodes equal to the list, and a
duplicated role does not change the encoding. -/
theorem encode_rules_or_fold_properties :
    UserClient._encode_rules [] = 0 ∧
    (∀ l₁ l₂ : List OperatorRole, l₁.Perm l₂ →
      UserClient._encode_rules l₁ = UserClient._encode_rules l₂) ∧
    (∀ (a : OperatorRole) (l : List OperatorRole),
      UserClient._encode_rules (a :: a :: l) = UserClient._encode_rules (a :: l)) := by
  refine ⟨rfl, ?_, ?_⟩
  · intro l₁ l₂ h
    unfold UserClient._encode_rules
    haveI := lorFold_rightCommutative
    exact h.foldl_eq 0
  · intro a l
    unfold UserClient._encode_rules
    simp [Nat.zero_or, Nat.or_self]

/-- Witness for C4: permutation invariance at the two concrete roles. -/
theorem encode_rules_or_fold_properties_witness :
    UserClient._encode_rules [OperatorRole.WITHDRAW, OperatorRole.LAUNCHPAD_FILL] =
      UserClient._encode_rules [OperatorRole.LAUNCHPAD_FILL, OperatorRole.WITHDRAW] :=
  encode_rules_or_fold_properties.2.1 _ _ (by decide)

/-- Claim C1: `approve_operator` raises a `ValueError` with no collaborator
call whenever the role list contains the withdraw role with
`unsafe_withdraw = false`, or the launchpad-fill role with
`unsafe_launchpad_fill = false`; `disapprove_operator` never raises. -/
theorem approve_guarded_disapprove_unguarded :
    (∀ (c : UserClient) (operator_address : ChecksumAddress)
        (roles : List OperatorRole) (uw ulf : Bool),
      ((OperatorRole.WITHDRAW ∈ roles ∧ uw = false) ∨
        (OperatorRole.LAUNCHPAD_FILL ∈ roles ∧ ulf = false)) →
      (c.approve_operator operator_address roles uw ulf).calls = [] ∧
      ∃ msg, (c.approve_operator operator_address roles uw ulf).err =
        some (Error.valueError msg)) ∧
    (∀ (c : UserClient) (operator_address : ChecksumAddress)
        (roles : List OperatorRole),
      (c.disapprove_operator operator_address roles).err = none ∧
      (c.disapprove_operator operator_address roles).calls =
        [Call.managerDisapprove operator_address (UserClient._encode_rules roles)]) := by
  constructor
  · intro c operator_address roles uw ulf h
    unfold UserClient.approve_operator
    rcases h with h | h
    · rw [if_pos h]
      exact ⟨rfl, _, rfl⟩
    · by_cases h₁ : OperatorRole.WITHDRAW ∈ roles ∧ uw = false
      · rw [if_pos h₁]
        exact ⟨rfl, _, rfl⟩
      · rw [if_neg h₁, if_pos h]
        exact ⟨rfl, _, rfl⟩
  · intro c operator_address roles
    exact ⟨rfl, rfl⟩

/-- Witness for C1: requesting the withdraw role without the opt-in flag at a
concrete state is rejected with no collaborator call. -/
theorem approve_guarded_disapprove_unguarded_witness :
    (sampleClient.approve_operator sampleOperator [OperatorRole.WITHDRAW] false false).calls = [] ∧
    ∃ msg, (sampleClient.approve_operator sampleOperator [OperatorRole.WITHDRAW] false false).err =
      some (Error.valueError msg) :=
  approve_guarded_disapprove_unguarded.1 sampleClient sampleOperator
    [OperatorRole.WITHDRAW] false false (by decide)

/-- Claim C10: an empty role list always passes the guards and issues one
contract-manager approval with bitmask 0; in general the guard error fires
exactly when a sensitive role is present without its opt-in flag. -/
theorem approve_empty_roles_and_guard_iff :
    ∀ (c : UserClient) (operator_address : ChecksumAddress)
      (roles : List OperatorRole) (uw ulf : Bool),
      c.approve_operator operator_address [] uw ulf =
        ⟨[Call.managerApprove operator_address 0], none⟩ ∧
      ((c.approve_operator operator_address roles uw ulf).err.isSome = true ↔
        ((OperatorRole.WITHDRAW ∈ roles ∧ uw = false) ∨
          (OperatorRole.LAUNCHPAD_FILL ∈ roles ∧ ulf = false))) := by
  intro c operator_address roles uw ulf
  constructor
  · unfold UserClient.approve_operator
    rw [if_neg, if_neg] <;> simp [UserClient._encode_rules]
  · unfold UserClient.approve_operator
    by_cases h₁ : OperatorRole.WITHDRAW ∈ roles ∧ uw = false
    · rw [if_pos h₁]
      simp [h₁]
    · rw [if_neg h₁]
      by_cases h₂ : OperatorRole.LAUNCHPAD_FILL ∈ roles ∧ ulf = false
      · rw [if_pos h₂]
        simp [h₁, h₂]
      · rw [if_neg h₂]
        simp [h₁, h₂]

/-- Claim C2: depositing amount `a` of the wrapped-native token issues exactly
one wrap call, for exactly `a - b`, before any approval or deposit transaction
when the wrapped balance `b` is below `a`, and no wrap call when `b ≥ a`. -/
theorem deposit_wraps_exact_shortfall :
    ∀ (c : UserClient) (env : ChainEnv) (amount : Int),
      c.clob_factory.isSome = true →
      (env.weth_balance < amount →
        (c.deposit env c.weth_address amount).calls.filter Call.isWrap =
          [Call.wrapEth c.weth_address (amount - env.weth_balance)] ∧
        allBefore Call.isWrap (fun x => Call.isApprove x || Call.isDeposit x)
          (c.deposit env c.weth_address amount).calls = true) ∧
      (env.weth_balance ≥ amount →
        (c.deposit env c.weth_address amount).calls.filter Call.isWrap = []) := by
  intro c env amount hinit
  cases hf : c.clob_factory with
  | none => rw [hf] at hinit; cases hinit
  | some u =>
    simp only [UserClient.deposit, UserClient.get_clob_factory, hf, if_pos rfl]
    constructor
    · intro hlt
      rw [if_pos hlt]
      by_cases ha : env.allowance < amount
      · rw [if_pos ha]
        exact ⟨rfl, rfl⟩
      · rw [if_neg ha]
        exact ⟨rfl, rfl⟩
    · intro hge
      rw [if_neg (by omega : ¬ env.weth_balance < amount)]
      by_cases ha : env.allowance < amount
      · rw [if_pos ha]; rfl
      · rw [if_neg ha]; rfl

/-- Witness for C2: the spec example — deposit of 100 with wrapped balance 40
wraps exactly 100 − 40, before approval and deposit. -/
theorem deposit_wraps_exact_shortfall_witness :
    (sampleClient.deposit ⟨40, 0⟩ sampleClient.weth_address 100).calls.filter Call.isWrap =
      [Call.wrapEth sampleClient.weth_address (100 - 40)] ∧
    allBefore Call.isWrap (fun x => Call.isApprove x || Call.isDeposit x)
      (sampleClient.deposit ⟨40, 0⟩ sampleClient.weth_address 100).calls = true :=
  (deposit_wraps_exact_shortfall sampleClient ⟨40, 0⟩ 100 (by decide)).1 (by decide)

/-- Claim C3: every deposit queries the allowance exactly once; it approves
exactly the amount when the allowance is short and not at all otherwise; and
the call order is wrap (if any), then allowance query, then approval (if any),
then the deposit transaction. -/
theorem deposit_allowance_check_and_order :
    ∀ (c : UserClient) (env : ChainEnv) (token : ChecksumAddress) (amount : Int),
      c.clob_factory.isSome = true →
      (c.deposit env token amount).calls.filter Call.isAllowance =
        [Call.allowance c.account c.factory_address] ∧
      (env.allowance ≥ amount →
        (c.deposit env token amount).calls.filter Call.isApprove = []) ∧
      (env.allowance < amount →
        (c.deposit env token amount).calls.filter Call.isApprove =
          [Call.approve c.factory_address amount]) ∧
      (c.deposit env token amount).calls.filter Call.isDeposit =
        [Call.factoryDeposit c.account token amount] ∧
      allBefore Call.isWrap Call.isAllowance (c.deposit env token amount).calls = true ∧
      allBefore Call.isAllowance Call.isApprove (c.deposit env token amount).calls = true ∧
      allBefore Call.isApprove Call.isDeposit (c.deposit env token amount).calls = true ∧
      allBefore Call.isAllowance Call.isDeposit (c.deposit env token amount).calls = true := by
  intro c env token amount hinit
  cases hf : c.clob_factory with
  | none => rw [hf] at hinit; cases hinit
  | some u =>
    simp only [UserClient.deposit, UserClient.get_clob_factory, hf]
    by_cases ht : token = c.weth_address
    · rw [if_pos ht]
      by_cases hb : env.weth_balance < amount
      · rw [if_pos hb]
        by_cases ha : env.allowance < amount
        · rw [if_pos ha]
          exact ⟨rfl, fun h => absurd ha (by omega), fun _ => rfl, rfl, rfl, rfl, rfl, rfl⟩
        · rw [if_neg ha]
          exact ⟨rfl, fun _ => rfl, fun h => absurd h ha, rfl, rfl, rfl, rfl, rfl⟩
      · rw [if_neg hb]
        by_cases ha : env.allowance < amount
        · rw [if_pos ha]
          exact ⟨rfl, fun h => absurd ha (by omega), fun _ => rfl, rfl, rfl, rfl, rfl, rfl⟩
        · rw [if_neg ha]
          exact ⟨rfl, fun _ => rfl, fun h => absurd h ha, rfl, rfl, rfl, rfl, rfl⟩
    · rw [if_neg ht]
      by_cases ha : env.allowance < amount
      · rw [if_pos ha]
        exact ⟨rfl, fun h => absurd ha (by omega), fun _ => rfl, rfl, rfl, rfl, rfl, rfl⟩
      · rw [if_neg ha]
        exact ⟨rfl, fun _ => rfl, fun h => absurd h ha, rfl, rfl, rfl, rfl, rfl⟩

/-- Witness for C3: a deposit of 3 with allowance 5 queries the allowance and
issues no approval. -/
theorem deposit_allowance_check_and_order_witness :
    (sampleClient.deposit ⟨0, 5⟩ sampleToken 3).calls.filter Call.isAllowance =
      [Call.allowance sampleClient.account sampleClient.factory_address] ∧
    (sampleClient.deposit ⟨0, 5⟩ sampleToken 3).calls.filter Call.isApprove = [] :=
  ⟨(deposit_allowance_check_and_order sampleClient ⟨0, 5⟩ sampleToken 3 (by decide)).1,
    (deposit_allowance_check_and_order sampleClient ⟨0, 5⟩ sampleToken 3 (by decide)).2.1
      (by decide)⟩

/-- Claim C8: with the CLOB factory uninitialized, `get_clob_factory` raises a
`RuntimeError`, and `deposit`, `withdraw`, `get_token_balance` all raise it
before any collaborator call; `RuntimeError` is distinct from the guards'
`ValueError`. -/
theorem uninitialized_factory_runtime_error :
    ∀ (c : UserClient) (env : ChainEnv) (token : ChecksumAddress) (amount : Int),
      c.clob_factory = none →
      (∃ msg, c.get_clob_factory = .error (.runtimeError msg)) ∧
      (∃ msg, c.deposit env token amount = ⟨[], some (.runtimeError msg)⟩) ∧
      (∃ msg, c.withdraw token amount = ⟨[], some (.runtimeError msg)⟩) ∧
      (∃ msg, c.get_token_balance token = ⟨[], some (.runtimeError msg)⟩) ∧
      (∀ m m', Error.runtimeError m ≠ Error.valueError m') := by
  intro c env token amount h
  simp only [UserClient.deposit, UserClient.withdraw, UserClient.get_token_balance,
    UserClient.get_clob_factory, h]
  exact ⟨⟨_, rfl⟩, ⟨_, rfl⟩, ⟨_, rfl⟩, ⟨_, rfl⟩, fun m m' => Error.noConfusion⟩

/-- Witness for C8: at a concrete uninitialized state, `deposit` raises the
initialization error with no collaborator call. -/
theorem uninitialized_factory_runtime_error_witness :
    ∃ msg, sampleUninitClient.deposit ⟨0, 0⟩ sampleToken 1 =
      ⟨[], some (Error.runtimeError msg)⟩ :=
  (uninitialized_factory_runtime_error sampleUninitClient ⟨0, 0⟩ sampleToken 1 rfl).2.1

/-- Claim C5: every open order mapped from a raw record has remaining amount
equal to the parsed `originalSize` minus the parsed `sizeFilled`, status
`OPEN`, time-in-force `GTC`, and order type `LIMIT`. -/
theorem open_orders_mapping_fields :
    ∀ (c : UserClient) (response : List RawRecord),
      List.Forall₂ (fun data o =>
          o.remaining_amount = some (data.originalSize - data.sizeFilled) ∧
          o.original_amount = some data.originalSize ∧
          o.status = OrderStatus.OPEN ∧
          o.time_in_force = TimeInForce.GTC ∧
          o.order_type = OrderType.LIMIT)
        response (c.get_open_orders response) := by
  intro c response
  induction response with
  | nil => exact .nil
  | cons d rest ih => exact .cons ⟨rfl, rfl, rfl, rfl, rfl⟩ ih

/-- Claim C6: `get_order_history` maps every record with status forced to
`OPEN` and neither `filled_amount` nor `filled_at` populated, while
`get_filled_orders` maps the same records with status `FILLED` and
`filled_at` populated from the response. -/
theorem order_history_open_vs_filled_mapping :
    ∀ (c : UserClient) (response : List RawRecord),
      List.Forall₂ (fun (_data : RawRecord) o =>
          o.status = OrderStatus.OPEN ∧
          o.filled_amount = none ∧
          o.filled_at = none)
        response (c.get_order_history response) ∧
      List.Forall₂ (fun data o =>
          o.status = OrderStatus.FILLED ∧
          o.filled_amount = some data.sizeFilled ∧
          o.filled_at = some data.filledAt)
        response (c.get_filled_orders response) := by
  intro c response
  constructor
  · induction response with
    | nil => exact .nil
    | cons d rest ih => exact .cons ⟨rfl, rfl, rfl⟩ ih
  · induction response with
    | nil => exact .nil
    | cons d rest ih => exact .cons ⟨rfl, rfl, rfl⟩ ih

/-- Claim C7: a portfolio response missing `totalUsdBalance` yields a total of
0, and one missing `tokens` yields the empty balance list, without error. -/
theorem portfolio_missing_fields_default :
    ∀ (c : UserClient) (portfolio : Portfolio),
      (portfolio.totalUsdBalance = none → c.get_total_usd_balance portfolio = 0) ∧
      (portfolio.tokens = none → c.get_token_balances portfolio = []) := by
  intro c portfolio
  constructor
  · intro h
    simp [UserClient.get_total_usd_balance, h]
  · intro h
    simp [UserClient.get_token_balances, h]

/-- Witness for C7: the portfolio with both keys absent. -/
theorem portfolio_missing_fields_default_witness :
    sampleClient.get_total_usd_balance ⟨none, none⟩ = 0 ∧
    sampleClient.get_token_balances ⟨none, none⟩ = [] :=
  ⟨(portfolio_missing_fields_default sampleClient ⟨none, none⟩).1 rfl,
    (portfolio_missing_fields_default sampleClient ⟨none, none⟩).2 rfl⟩

/-- Claim C9: every public operation returns the facade state unchanged; no
operation writes any field or caches any result on the facade. -/
theorem facade_stateless :
    ∀ (c : UserClient) (op : Op), (runOp c op).1 = c := by
  intro c op
  cases op <;> rfl

end GteUser
